import Mathlib

/-
Verification of the API-access layer of the Graph-based-Rec-Engine frontend.

The repository ships three variants of `frontend/lib/api.ts`:
  * variant v0 (src/unnamed/part_000): axios client with a 10 s timeout and a
    response interceptor that unwraps `response.data` and substitutes mock data
    (dashboard-summary, customer-segments, revenue, otherwise an empty array)
    on connection failure;
  * variant v1 (src/unnamed/part_001): axios client with no timeout and no
    interceptor; every fetch function awaits the response and returns
    `response.data` explicitly;
  * variant v2 (src/unnamed/part_002): like v0 but the mock table has no
    revenue branch.

The definitions below are a shallow embedding of those files: JSON payloads
are an inductive `Json` over `Rat` numbers, the transport outcome of a request
is a sum of a successful axios response and an axios error, the ambient
non-determinism the v0 revenue mock observes (`new Date()`, `Math.random()`)
is an explicit environment, and each fetch function is embedded as the
request value it hands to axios.
-/

set_option autoImplicit false

namespace RecEngine

/-- JSON values as exchanged with the backend; numbers are modelled as `Rat`
(the mock payloads use decimal literals such as 23.5). -/
inductive Json where
  | num (q : Rat)
  | str (s : String)
  | arr (elems : List Json)
  | obj (fields : List (String × Json))

/-- JavaScript `String.prototype.includes` on the underlying character
lists: `strIncludesAux pat l` holds iff `pat` occurs contiguously in `l`. -/
def strIncludesAux (pat : List Char) : List Char → Bool
  | [] => pat.isEmpty
  | c :: rest => pat.isPrefixOf (c :: rest) || strIncludesAux pat rest

/-- `url.includes(pat)` from the source, as a Bool on strings. -/
def strIncludes (s pat : String) : Bool :=
  strIncludesAux pat.toList s.toList

/-- The axios error object as observed by the response interceptor:
`error.code` (possibly undefined), `error.config.url` (the requested url),
plus a message and the HTTP status of the response when one was received.
The interceptor either resolves with substituted data or rejects with this
very value, unchanged. -/
structure AxiosError where
  code : Option String
  configUrl : String
  message : String
  responseStatus : Option Nat
  deriving DecidableEq

/-- A successful axios response: HTTP status and decoded JSON payload. -/
structure AxiosResponse where
  status : Nat
  data : Json

/-- The settled transport outcome of one request, before the response
interceptor runs. -/
inductive Outcome where
  | success (r : AxiosResponse)
  | failure (e : AxiosError)

/-- Ambient state the v0 mock-data generator observes: `isoDaysAgo k` is the
`toISOString()` rendering of a fresh `new Date()` shifted back `k` days via
`setDate`, and `rand n` is the value of the n-th `Math.random()` call of the
generator, a rational in [0, 1). -/
structure Env where
  isoDaysAgo : Nat → String
  rand : Nat → Rat

/-- The literal mock DashboardSummary payload (both v0 and v2). -/
def dashboardMock : Json :=
  .obj [
    ("total_customers", .num 12543),
    ("total_products", .num 3421),
    ("total_purchases", .num 45632),
    ("total_revenue", .num 2456789),
    ("revenue_30d", .num 245678),
    ("revenue_growth_30d", .num 23.5),
    ("active_customers_30d", .num 3456),
    ("new_customers_30d", .num 234),
    ("database_status", .str "operational")
  ]

/-- The literal 3-element mock customer-segment list (both v0 and v2). -/
def segmentsMock : Json :=
  .arr [
    .obj [("segment_name", .str "Champions"), ("customer_count", .num 2450),
          ("percentage", .num 24.5)],
    .obj [("segment_name", .str "Loyal"), ("customer_count", .num 3200),
          ("percentage", .num 32)],
    .obj [("segment_name", .str "Potential"), ("customer_count", .num 1800),
          ("percentage", .num 18)]
  ]

/-- The 30-day synthetic daily revenue series of the v0 revenue mock.
Iteration `i` builds a date `30 - i` days back, a revenue
`5000 + Math.random() * 3000 + i * 50` and an order count
`Math.floor(50 + Math.random() * 30 + i * 2)`; the two `Math.random()`
draws of iteration `i` are draws `2 * i` and `2 * i + 1` of the stream. -/
def revenueDaily (env : Env) : List Json :=
  (List.range 30).map fun i =>
    .obj [
      ("date", .str (env.isoDaysAgo (30 - i))),
      ("revenue", .num (5000 + env.rand (2 * i) * 3000 + (i : Rat) * 50)),
      ("orders", .num ((Rat.floor (50 + env.rand (2 * i + 1) * 30 + (i : Rat) * 2) : Int) : Rat))
    ]

/-- The v0 mock revenue payload: fixed summary numbers plus the synthetic
daily series. -/
def revenueMock (env : Env) : Json :=
  .obj [
    ("total_revenue", .num 234500),
    ("order_count", .num 4567),
    ("avg_order_value", .num 51.23),
    ("growth_rate", .num 23.5),
    ("daily_revenue", .arr (revenueDaily env))
  ]

/-- `getMockData` of variant v0 (src/unnamed/part_000): dispatch on url
substrings, in source order dashboard-summary, customer-segments, revenue,
otherwise an empty array. -/
def getMockData_v0 (env : Env) (url : String) : Json :=
  if strIncludes url "dashboard-summary" then dashboardMock
  else if strIncludes url "customer-segments" then segmentsMock
  else if strIncludes url "revenue" then revenueMock env
  else .arr []

/-- `getMockData` of variant v2 (src/unnamed/part_002): dashboard-summary,
customer-segments, otherwise an empty array (no revenue branch). -/
def getMockData_v2 (url : String) : Json :=
  if strIncludes url "dashboard-summary" then dashboardMock
  else if strIncludes url "customer-segments" then segmentsMock
  else .arr []

/-- The interceptor's masking test:
`error.code === 'ECONNREFUSED' || error.code === 'ERR_NETWORK'`. -/
def maskedCode (c : Option String) : Bool :=
  c == some "ECONNREFUSED" || c == some "ERR_NETWORK"

/-- What a call through the v0 client settles to, as a function of the
transport outcome: the response interceptor maps a success to its
`response.data` and a failure either to resolved mock data (when the error
code is a masked network condition) or to a rejection carrying the error
unchanged. -/
def interceptResult_v0 (env : Env) : Outcome → Except AxiosError Json
  | .success r => .ok r.data
  | .failure e =>
      if maskedCode e.code then .ok (getMockData_v0 env e.configUrl)
      else .error e

/-- What a call through the v2 client settles to; same interceptor as v0 but
over the v2 mock table (which needs no environment). -/
def interceptResult_v2 : Outcome → Except AxiosError Json
  | .success r => .ok r.data
  | .failure e =>
      if maskedCode e.code then .ok (getMockData_v2 e.configUrl)
      else .error e

/-- What a v1 fetch function returns, as a function of the transport outcome:
there is no interceptor, so `await api.get(...)` rethrows a failure and the
function returns `response.data` of a success. -/
def fetchResult_v1 : Outcome → Except AxiosError Json
  | .success r => .ok r.data
  | .failure e => .error e

/-- The axios client configuration materialised by `axios.create`:
base url, default headers, and the request timeout in milliseconds
(`none` when the variant sets no timeout, in which case axios applies its
default of 0, i.e. no bound). -/
structure AxiosConfig where
  baseURL : String
  headers : List (String × String)
  timeout : Option Nat
  deriving DecidableEq

/-- `process.env.NEXT_PUBLIC_API_URL || 'http://localhost:8000/api/v1'`. -/
def apiBaseURL (envUrl : Option String) : String :=
  match envUrl with
  | some u => if u == "" then "http://localhost:8000/api/v1" else u
  | none => "http://localhost:8000/api/v1"

/-- The v0 client configuration (src/unnamed/part_000, lines 5-11). -/
def api_v0 (envUrl : Option String) : AxiosConfig :=
  { baseURL := apiBaseURL envUrl
    headers := [("Content-Type", "application/json")]
    timeout := some 10000 }

/-- The v1 client configuration (src/unnamed/part_001, lines 6-11): no
timeout field. -/
def api_v1 (envUrl : Option String) : AxiosConfig :=
  { baseURL := apiBaseURL envUrl
    headers := [("Content-Type", "application/json")]
    timeout := none }

/-- The v2 client configuration (src/unnamed/part_002, lines 8-14). -/
def api_v2 (envUrl : Option String) : AxiosConfig :=
  { baseURL := apiBaseURL envUrl
    headers := [("Content-Type", "application/json")]
    timeout := some 10000 }

/-- A JavaScript `Date` value, modelled by the one observation the fetch
layer makes of it: its `toISOString()` rendering. -/
structure JSDate where
  isoString : String
  deriving DecidableEq

/-- `date.toISOString()`. -/
def JSDate.toISOString (d : JSDate) : String := d.isoString

/-- HTTP method of a request. -/
inductive Method where
  | get
  | post

/-- An outgoing request as handed to axios, at the level the claims speak
about: method, request path, effective query parameters (an ordered
key-value list; v0 passes it as the axios `params` config and axios renders
it into the url, v1 and v2 render it themselves through `URLSearchParams` -
either way the server decodes back exactly this list), and JSON body of a
POST. -/
structure Request where
  method : Method
  path : String
  query : List (String × String)
  body : Option Json

/-- `if (filter) params.append(key, filter)` from the source: the optional
string filter is added exactly when it is JavaScript-truthy, i.e. present
and non-empty. -/
def filterParam (key : String) : Option String → List (String × String)
  | some s => if s == "" then [] else [(key, s)]
  | none => []

/-- `fetchProducts` of v0 (src/unnamed/part_000, lines 93-100): GET
/products with a params object holding `limit`, `offset` and, when truthy,
`category`; axios serialises the numbers to their decimal strings. -/
def fetchProducts_v0 (limit offset : Int) (category : Option String) : Request :=
  { method := .get
    path := "/products"
    query := [("limit", toString limit), ("offset", toString offset)]
      ++ filterParam "category" category
    body := none }

/-- `fetchProducts` of v1 (src/unnamed/part_001, lines 44-53): GET
/products with a `URLSearchParams` of `String(limit)`, `String(offset)` and,
when truthy, an appended `category`, rendered into the url. -/
def fetchProducts_v1 (limit offset : Int) (category : Option String) : Request :=
  { method := .get
    path := "/products"
    query := [("limit", toString limit), ("offset", toString offset)]
      ++ filterParam "category" category
    body := none }

/-- `fetchCustomers` of v0 (src/unnamed/part_000, lines 102-109): like
`fetchProducts` with a `segment` filter. -/
def fetchCustomers_v0 (limit offset : Int) (segment : Option String) : Request :=
  { method := .get
    path := "/customers"
    query := [("limit", toString limit), ("offset", toString offset)]
      ++ filterParam "segment" segment
    body := none }

/-- `fetchCustomers` of v2 (src/unnamed/part_002, lines 80-87):
`URLSearchParams` of limit and offset with an appended `segment` when
truthy. -/
def fetchCustomers_v2 (limit offset : Int) (segment : Option String) : Request :=
  { method := .get
    path := "/customers"
    query := [("limit", toString limit), ("offset", toString offset)]
      ++ filterParam "segment" segment
    body := none }

/-- `fetchPopularProducts` of v1 (src/unnamed/part_001, lines 113-119):
`URLSearchParams` of `String(limit)` with an appended `category` when
truthy, GET /recommendations/popular. -/
def fetchPopularProducts_v1 (limit : Int) (category : Option String) : Request :=
  { method := .get
    path := "/recommendations/popular"
    query := [("limit", toString limit)] ++ filterParam "category" category
    body := none }

/-- `fetchRevenueAnalytics` of v0 (src/unnamed/part_000, lines 85-91): GET
/analytics/revenue; `params.start_date` / `params.end_date` are set to the
`toISOString()` rendering exactly when the corresponding `Date` argument is
present (a `Date` object is always truthy). -/
def fetchRevenueAnalytics_v0 (startDate endDate : Option JSDate) : Request :=
  { method := .get
    path := "/analytics/revenue"
    query :=
      (match startDate with
        | some d => [("start_date", d.toISOString)]
        | none => [])
      ++ (match endDate with
        | some d => [("end_date", d.toISOString)]
        | none => [])
    body := none }

/-- The POST body object holding `start_date: startDate?.toISOString()` and
`end_date: endDate?.toISOString()`, as serialised on the wire:
`JSON.stringify` drops properties whose value is `undefined`, so exactly the
supplied fields appear. -/
def revenueBodyFields (startDate endDate : Option JSDate) : List (String × Json) :=
  (match startDate with
    | some d => [("start_date", .str d.toISOString)]
    | none => [])
  ++ (match endDate with
    | some d => [("end_date", .str d.toISOString)]
    | none => [])

/-- `fetchRevenueAnalytics` of v1 (src/unnamed/part_001, lines 25-31): POST
/analytics/revenue with the optional-date body. -/
def fetchRevenueAnalytics_v1 (startDate endDate : Option JSDate) : Request :=
  { method := .post
    path := "/analytics/revenue"
    query := []
    body := some (.obj (revenueBodyFields startDate endDate)) }

/-- `fetchRevenueAnalytics` of v2 (src/unnamed/part_002, lines 64-69): POST
/analytics/revenue with the optional-date body. -/
def fetchRevenueAnalytics_v2 (startDate endDate : Option JSDate) : Request :=
  { method := .post
    path := "/analytics/revenue"
    query := []
    body := some (.obj (revenueBodyFields startDate endDate)) }

/-- `fetchCustomerSegments` of v0 (src/unnamed/part_000, lines 81-83):
GET /analytics/customer-segments, no parameters. -/
def fetchCustomerSegments_v0 : Request :=
  { method := .get
    path := "/analytics/customer-segments"
    query := []
    body := none }

/-- The field list of a request's JSON object body (empty when there is no
object body); used to state which fields a POST body carries. -/
def bodyFields (r : Request) : List (String × Json) :=
  match r.body with
  | some (.obj fs) => fs
  | _ => []

/-- The request path of an outcome, as the interceptor sees it: the
`config.url` recorded in the error of a failure (a success is never
inspected for its url). -/
def outcomeUrlIs (p : String) : Outcome → Prop
  | .success _ => True
  | .failure e => e.configUrl = p

/-- A concrete environment: epoch dates, a random stream constant at 0. -/
def env0 : Env :=
  { isoDaysAgo := fun _ => "1970-01-01T00:00:00.000Z"
    rand := fun _ => 0 }

/-- A second, different concrete environment: numbered date strings and a
random stream constant at 1/2. -/
def envAlt : Env :=
  { isoDaysAgo := fun k => toString k
    rand := fun _ => 1 / 2 }

/-- A connection-refused failure of the dashboard-summary request. -/
def errDash : AxiosError :=
  { code := some "ECONNREFUSED"
    configUrl := "/analytics/dashboard-summary"
    message := "connect ECONNREFUSED 127.0.0.1:8000"
    responseStatus := none }

/-- A network-unreachable failure of the customer-segments request. -/
def errSeg : AxiosError :=
  { code := some "ERR_NETWORK"
    configUrl := "/analytics/customer-segments"
    message := "Network Error"
    responseStatus := none }

/-- A connection-refused failure of the revenue request. -/
def errRevenue : AxiosError :=
  { code := some "ECONNREFUSED"
    configUrl := "/analytics/revenue"
    message := "connect ECONNREFUSED 127.0.0.1:8000"
    responseStatus := none }

/-- A connection-refused failure of the health-check request, whose path
contains none of the mock-table substrings. -/
def errHealth : AxiosError :=
  { code := some "ECONNREFUSED"
    configUrl := "/health"
    message := "connect ECONNREFUSED 127.0.0.1:8000"
    responseStatus := none }

/-- A network failure of a products request whose category filter value
makes the url contain both "dashboard-summary" and "customer-segments"
(space form-encoded as "+" by URLSearchParams). -/
def errBoth : AxiosError :=
  { code := some "ERR_NETWORK"
    configUrl := "/products?limit=50&offset=0&category=dashboard-summary+customer-segments"
    message := "Network Error"
    responseStatus := none }

/-- An HTTP 500 failure: axios rejects with code ERR_BAD_RESPONSE. -/
def errHttp500 : AxiosError :=
  { code := some "ERR_BAD_RESPONSE"
    configUrl := "/products"
    message := "Request failed with status code 500"
    responseStatus := some 500 }

/-- A timeout failure: axios rejects with code ECONNABORTED. -/
def errTimeout : AxiosError :=
  { code := some "ECONNABORTED"
    configUrl := "/health"
    message := "timeout of 10000ms exceeded"
    responseStatus := none }

/-- A concrete date argument. -/
def dateA : JSDate := { isoString := "2024-01-01T00:00:00.000Z" }

/-- C1: for every request whose transport fails with error code ECONNREFUSED
or ERR_NETWORK and whose path contains "dashboard-summary", the call
resolves (does not reject) with exactly the literal mock DashboardSummary
payload, in both interceptor variants. -/
theorem dashboard_fallback_resolves_mock (env : Env) (e : AxiosError)
    (hc : e.code = some "ECONNREFUSED" ∨ e.code = some "ERR_NETWORK")
    (hu : strIncludes e.configUrl "dashboard-summary" = true) :
    interceptResult_v0 env (.failure e) = .ok dashboardMock ∧
    interceptResult_v2 (.failure e) = .ok dashboardMock := by
  have hm : maskedCode e.code = true := by
    rcases hc with h | h <;> simp [maskedCode, h]
  constructor <;>
    simp [interceptResult_v0, interceptResult_v2, hm, getMockData_v0,
      getMockData_v2, hu]

/-- C1 witness: a connection-refused failure of the dashboard-summary
request resolves with the mock payload. -/
theorem dashboard_fallback_resolves_mock_witness :
    interceptResult_v0 env0 (.failure errDash) = .ok dashboardMock ∧
    interceptResult_v2 (.failure errDash) = .ok dashboardMock :=
  dashboard_fallback_resolves_mock env0 errDash (Or.inl rfl) rfl

/-- C2: a failure whose error code is neither ECONNREFUSED nor ERR_NETWORK
(including an absent code) is never masked: the call rejects, in both
interceptor variants, with the error value unchanged. -/
theorem non_network_error_propagates (env : Env) (e : AxiosError)
    (h1 : e.code ≠ some "ECONNREFUSED") (h2 : e.code ≠ some "ERR_NETWORK") :
    interceptResult_v0 env (.failure e) = .error e ∧
    interceptResult_v2 (.failure e) = .error e := by
  have hm : maskedCode e.code = false := by
    simp [maskedCode, h1, h2]
  constructor <;> simp [interceptResult_v0, interceptResult_v2, hm]

/-- C2 witness: an HTTP 500 rejection (code ERR_BAD_RESPONSE) propagates
unchanged through both interceptor variants. -/
theorem non_network_error_propagates_witness :
    interceptResult_v0 env0 (.failure errHttp500) = .error errHttp500 ∧
    interceptResult_v2 (.failure errHttp500) = .error errHttp500 :=
  non_network_error_propagates env0 errHttp500 (by decide) (by decide)

/-- C3 counterexample: the path "/analytics/revenue" contains neither
"dashboard-summary" nor "customer-segments", its failure is masked, yet in
variant v0 the call does not resolve with an empty sequence (it resolves
with the synthetic revenue mock object). -/
theorem revenue_path_not_empty_cex :
    strIncludes errRevenue.configUrl "dashboard-summary" = false ∧
    strIncludes errRevenue.configUrl "customer-segments" = false ∧
    maskedCode errRevenue.code = true ∧
    interceptResult_v0 env0 (.failure errRevenue) ≠ .ok (Json.arr []) := by
  refine ⟨rfl, rfl, rfl, ?_⟩
  intro h
  have h2 : interceptResult_v0 env0 (.failure errRevenue)
      = .ok (revenueMock env0) := rfl
  exact Json.noConfusion (Except.ok.inj (h2.symm.trans h))

/-- C3 amended: a masked failure whose path contains neither
"dashboard-summary" nor "customer-segments" resolves with an empty sequence
in variant v2 unconditionally, and in variant v0 provided the path also does
not contain "revenue". -/
theorem other_path_fallback_empty (env : Env) (e : AxiosError)
    (hc : e.code = some "ECONNREFUSED" ∨ e.code = some "ERR_NETWORK")
    (h1 : strIncludes e.configUrl "dashboard-summary" = false)
    (h2 : strIncludes e.configUrl "customer-segments" = false) :
    interceptResult_v2 (.failure e) = .ok (.arr []) ∧
    (strIncludes e.configUrl "revenue" = false →
      interceptResult_v0 env (.failure e) = .ok (.arr [])) := by
  have hm : maskedCode e.code = true := by
    rcases hc with h | h <;> simp [maskedCode, h]
  constructor
  · simp [interceptResult_v2, hm, getMockData_v2, h1, h2]
  · intro h3
    simp [interceptResult_v0, hm, getMockData_v0, h1, h2, h3]

/-- C3 amended witness: a masked failure of the health-check request
resolves with an empty array in both variants. -/
theorem other_path_fallback_empty_witness :
    interceptResult_v2 (.failure errHealth) = .ok (.arr []) ∧
    interceptResult_v0 env0 (.failure errHealth) = .ok (.arr []) :=
  ⟨(other_path_fallback_empty env0 errHealth (Or.inl rfl) rfl rfl).1,
   (other_path_fallback_empty env0 errHealth (Or.inl rfl) rfl rfl).2 rfl⟩

/-- C4 counterexample: a masked failure whose path contains
"customer-segments" but also "dashboard-summary" (reachable through a
category filter value, form-encoded into the query string) does not resolve
with the segment list: the dashboard branch is checked first and wins. -/
theorem segments_claim_cex :
    maskedCode errBoth.code = true ∧
    strIncludes errBoth.configUrl "customer-segments" = true ∧
    interceptResult_v2 (.failure errBoth) ≠ .ok segmentsMock ∧
    interceptResult_v2 (.failure errBoth) = .ok dashboardMock := by
  refine ⟨rfl, rfl, ?_, rfl⟩
  intro h
  have h2 : interceptResult_v2 (.failure errBoth) = .ok dashboardMock := rfl
  exact Json.noConfusion (Except.ok.inj (h2.symm.trans h))

/-- C4 amended: a masked failure whose path contains "customer-segments"
and does not contain "dashboard-summary" resolves, in both interceptor
variants, with exactly the 3-element mock segment list Champions (2450,
24.5), Loyal (3200, 32), Potential (1800, 18), in that order. -/
theorem segments_fallback (env : Env) (e : AxiosError)
    (hc : e.code = some "ECONNREFUSED" ∨ e.code = some "ERR_NETWORK")
    (hu : strIncludes e.configUrl "customer-segments" = true)
    (hnd : strIncludes e.configUrl "dashboard-summary" = false) :
    interceptResult_v0 env (.failure e) = .ok segmentsMock ∧
    interceptResult_v2 (.failure e) = .ok segmentsMock := by
  have hm : maskedCode e.code = true := by
    rcases hc with h | h <;> simp [maskedCode, h]
  constructor <;>
    simp [interceptResult_v0, interceptResult_v2, hm, getMockData_v0,
      getMockData_v2, hu, hnd]

/-- C4 amended witness: a network failure of the customer-segments request
resolves with the mock segment list. -/
theorem segments_fallback_witness :
    interceptResult_v0 env0 (.failure errSeg) = .ok segmentsMock ∧
    interceptResult_v2 (.failure errSeg) = .ok segmentsMock :=
  segments_fallback env0 errSeg (Or.inr rfl) rfl rfl

/-- C5 counterexample: the v1 client configuration sets no timeout at all
(axios's default, no bound), so the claim that the client configuration
always sets a 10000 ms timeout fails on that variant. -/
theorem plain_client_no_timeout_cex :
    (api_v1 none).timeout = none ∧ (api_v1 none).timeout ≠ some 10000 := by
  decide

/-- C5 amended: the two interceptor variants v0 and v2 set a 10000 ms
timeout; all three variants send the JSON content-type header; v1 sets no
timeout; and a timeout error (code ECONNABORTED) is not in the masked set,
so it propagates to the caller as a failure. -/
theorem client_timeout_amended :
    (∀ u : Option String,
      (api_v0 u).timeout = some 10000 ∧
      (api_v2 u).timeout = some 10000 ∧
      (api_v1 u).timeout = none ∧
      (api_v0 u).headers = [("Content-Type", "application/json")] ∧
      (api_v1 u).headers = [("Content-Type", "application/json")] ∧
      (api_v2 u).headers = [("Content-Type", "application/json")]) ∧
    maskedCode (some "ECONNABORTED") = false ∧
    (∀ (env : Env) (e : AxiosError), e.code = some "ECONNABORTED" →
      interceptResult_v0 env (.failure e) = .error e ∧
      interceptResult_v2 (.failure e) = .error e) := by
  refine ⟨fun u => ⟨rfl, rfl, rfl, rfl, rfl, rfl⟩, rfl, fun env e h => ?_⟩
  have hm : maskedCode e.code = false := by simp [maskedCode, h]
  constructor <;> simp [interceptResult_v0, interceptResult_v2, hm]

/-- C5 amended witness: a concrete timeout rejection propagates through
both interceptor variants. -/
theorem client_timeout_amended_witness :
    interceptResult_v0 env0 (.failure errTimeout) = .error errTimeout ∧
    interceptResult_v2 (.failure errTimeout) = .error errTimeout :=
  client_timeout_amended.2.2 env0 errTimeout rfl

/-- C6 counterexample: supplying the empty string as the category argument
of fetchProducts(50, 0, "") does not send a category parameter (JavaScript
truthiness treats "" as absent), so the category parameter is not sent
exactly when an argument is supplied. -/
theorem empty_category_supplied_cex :
    (fetchProducts_v0 50 0 (some "")).query.lookup "category" = none ∧
    (fetchProducts_v1 50 0 (some "")).query.lookup "category" = none ∧
    (fetchProducts_v0 50 0 (some "")).query = [("limit", "50"), ("offset", "0")] := by
  refine ⟨rfl, rfl, rfl⟩

/-- C6 amended: fetchProducts always sends exactly the two pagination
parameters limit and offset (as decimal strings), and sends the category
parameter exactly when a non-empty category argument is supplied; in
particular fetchProducts(50, 0) sends exactly limit=50 and offset=0 with no
category key, and fetchProducts(50, 0, "electronics") additionally sends
category=electronics. -/
theorem fetchProducts_query_params (l o : Int) :
    (fetchProducts_v0 l o none).query = [("limit", toString l), ("offset", toString o)] ∧
    (fetchProducts_v1 l o none).query = [("limit", toString l), ("offset", toString o)] ∧
    ∀ c : String, c ≠ "" →
      (fetchProducts_v0 l o (some c)).query
        = [("limit", toString l), ("offset", toString o), ("category", c)] ∧
      (fetchProducts_v1 l o (some c)).query
        = [("limit", toString l), ("offset", toString o), ("category", c)] := by
  refine ⟨rfl, rfl, fun c hc => ?_⟩
  have h : (c == "") = false := by simp [hc]
  constructor <;> simp [fetchProducts_v0, fetchProducts_v1, filterParam, h]

/-- C6 amended witness: fetchProducts(50, 0, "electronics") sends
limit=50, offset=0, category=electronics. -/
theorem fetchProducts_query_params_witness :
    (fetchProducts_v0 50 0 (some "electronics")).query
      = [("limit", "50"), ("offset", "0"), ("category", "electronics")] :=
  ((fetchProducts_query_params 50 0).2.2 "electronics" (by decide)).1

/-- C7: in every fetchRevenueAnalytics variant, a supplied Date argument
appears in the outgoing request (query parameter in v0, JSON body field in
v1 and v2) as its toISOString rendering, and an omitted argument leaves the
corresponding field absent rather than empty or null. -/
theorem revenue_dates_serialization (s e : Option JSDate) :
    (∀ d, s = some d →
      (fetchRevenueAnalytics_v0 s e).query.lookup "start_date" = some d.toISOString ∧
      (bodyFields (fetchRevenueAnalytics_v1 s e)).lookup "start_date"
        = some (.str d.toISOString) ∧
      (bodyFields (fetchRevenueAnalytics_v2 s e)).lookup "start_date"
        = some (.str d.toISOString)) ∧
    (s = none →
      (fetchRevenueAnalytics_v0 s e).query.lookup "start_date" = none ∧
      (bodyFields (fetchRevenueAnalytics_v1 s e)).lookup "start_date" = none ∧
      (bodyFields (fetchRevenueAnalytics_v2 s e)).lookup "start_date" = none) ∧
    (∀ d, e = some d →
      (fetchRevenueAnalytics_v0 s e).query.lookup "end_date" = some d.toISOString ∧
      (bodyFields (fetchRevenueAnalytics_v1 s e)).lookup "end_date"
        = some (.str d.toISOString) ∧
      (bodyFields (fetchRevenueAnalytics_v2 s e)).lookup "end_date"
        = some (.str d.toISOString)) ∧
    (e = none →
      (fetchRevenueAnalytics_v0 s e).query.lookup "end_date" = none ∧
      (bodyFields (fetchRevenueAnalytics_v1 s e)).lookup "end_date" = none ∧
      (bodyFields (fetchRevenueAnalytics_v2 s e)).lookup "end_date" = none) := by
  refine ⟨?_, ?_, ?_, ?_⟩
  · rintro d rfl
    cases e <;> exact ⟨rfl, rfl, rfl⟩
  · rintro rfl
    cases e <;> exact ⟨rfl, rfl, rfl⟩
  · rintro d rfl
    cases s <;> exact ⟨rfl, rfl, rfl⟩
  · rintro rfl
    cases s <;> exact ⟨rfl, rfl, rfl⟩

/-- C7 witness: with a supplied start date and an omitted end date, the v0
request carries start_date as the ISO string and no end_date. -/
theorem revenue_dates_serialization_witness :
    (fetchRevenueAnalytics_v0 (some dateA) none).query.lookup "start_date"
      = some dateA.toISOString ∧
    (fetchRevenueAnalytics_v0 (some dateA) none).query.lookup "end_date" = none :=
  ⟨((revenue_dates_serialization (some dateA) none).1 dateA rfl).1,
   ((revenue_dates_serialization (some dateA) none).2.2.2 rfl).1⟩

/-- C8: fetchCustomerSegments is idempotent at the client boundary: for the
customer-segments request path, the settled result of the v0 call is a
function of the transport outcome alone - it does not depend on the ambient
environment (date, random stream) the v0 mock generator can observe - so two
runs under the same external conditions return structurally equal values;
moreover on the masked connection-failure path the result is the
deterministic constant segment list. -/
theorem fetchCustomerSegments_idempotent :
    (∀ (env1 env2 : Env) (o : Outcome),
      outcomeUrlIs fetchCustomerSegments_v0.path o →
      interceptResult_v0 env1 o = interceptResult_v0 env2 o) ∧
    (∀ (env : Env) (e : AxiosError), maskedCode e.code = true →
      e.configUrl = fetchCustomerSegments_v0.path →
      interceptResult_v0 env (.failure e) = .ok segmentsMock) := by
  constructor
  · intro env1 env2 o h
    cases o with
    | success r => rfl
    | failure e =>
        have hu : e.configUrl = "/analytics/customer-segments" := h
        simp only [interceptResult_v0]
        rw [hu]
        exact rfl
  · intro env e hm hu
    have hu2 : e.configUrl = "/analytics/customer-segments" := hu
    simp only [interceptResult_v0]
    rw [hu2, hm]
    exact rfl

/-- C8 witness: two runs in different ambient environments of a masked
customer-segments failure settle identically. -/
theorem fetchCustomerSegments_idempotent_witness :
    interceptResult_v0 env0 (.failure errSeg)
      = interceptResult_v0 envAlt (.failure errSeg) :=
  fetchCustomerSegments_idempotent.1 env0 envAlt (.failure errSeg) rfl

/-- C9: passing the empty string as the optional filter of fetchProducts
(category), fetchCustomers (segment) or fetchPopularProducts (category)
produces exactly the request produced by omitting the argument: presence is
decided by JavaScript truthiness, so an empty-string filter cannot be
requested. -/
theorem empty_filter_equals_absent (l o : Int) :
    fetchProducts_v0 l o (some "") = fetchProducts_v0 l o none ∧
    fetchProducts_v1 l o (some "") = fetchProducts_v1 l o none ∧
    fetchCustomers_v0 l o (some "") = fetchCustomers_v0 l o none ∧
    fetchCustomers_v2 l o (some "") = fetchCustomers_v2 l o none ∧
    fetchPopularProducts_v1 l (some "") = fetchPopularProducts_v1 l none :=
  ⟨rfl, rfl, rfl, rfl, rfl⟩

/-- C10: the interceptor variant v0 and the plain variant v1 are
observationally equivalent on the success path of fetchProducts: for every
limit, offset and optional category they issue the same GET request (same
path, same effective query parameters), and for every successful server
response both return exactly the decoded payload response.data - v0 through
its response interceptor, v1 through its explicit await-and-return. -/
theorem variants_fetchProducts_equiv :
    (∀ (l o : Int) (c : Option String),
      fetchProducts_v0 l o c = fetchProducts_v1 l o c) ∧
    (∀ (env : Env) (r : AxiosResponse),
      interceptResult_v0 env (.success r) = .ok r.data ∧
      fetchResult_v1 (.success r) = .ok r.data) :=
  ⟨fun _ _ _ => rfl, fun _ _ => ⟨rfl, rfl⟩⟩

end RecEngine
